import Mathlib

/-!
Verification of the recurring-task engine of the PersonallyMe backend
(`backend/apps/tasks/models.py`, class `Task`).

The engine is shallowly embedded: a `Task` structure mirrors the model's
fields (dates are modelled as integer day numbers, since the engine only
ever adds whole numbers of days and subtracts dates), and the methods
`_get_next_due_date`, `_should_create_next_occurrence`,
`_reset_period_if_needed` and `complete_recurring_task` become pure Lean
functions.  The ambient `timezone.now().date()` is passed explicitly as a
`today` parameter, and the primary key handed out by `Task.objects.create`
for the successor row is passed as a `freshId` parameter.
-/

namespace PersonallyMe

/-- `Task.Status` text choices. -/
inductive Status where
  | todo
  | in_progress
  | completed
deriving DecidableEq, Repr

/-- `Task.Priority` text choices. -/
inductive Priority where
  | low
  | medium
  | high
deriving DecidableEq, Repr

/-- `Task.RecurrencePattern` text choices. -/
inductive RecurrencePattern where
  | none
  | daily
  | weekly
  | monthly
deriving DecidableEq, Repr

/-- The fields of the Django `Task` model that the recurrence engine can
read or write.  `due_date`, `deleted_at` and `period_start_date` are day
numbers (`Int`); `times_per_period` and `current_period_count` come from
`PositiveIntegerField`s, hence `Nat`; `tags` is the list of associated tag
ids; `parent_task` and `id` are row ids.  The DB-managed `created_at` /
`updated_at` timestamps are not modelled. -/
structure Task where
  id : Nat
  user : Nat
  title : String
  description : Option String
  status : Status
  priority : Priority
  tags : List Nat
  due_date : Option Int
  is_deleted : Bool
  deleted_at : Option Int
  recurrence_pattern : RecurrencePattern
  times_per_period : Option Nat
  current_period_count : Nat
  period_start_date : Option Int
  parent_task : Option Nat
  keep_history : Bool
deriving DecidableEq, Repr

/-- `Task.is_recurring`: the task has a recurrence pattern other than
`none`. -/
def Task.is_recurring (t : Task) : Bool :=
  match t.recurrence_pattern with
  | .none => false
  | _ => true

/-- `Task._get_next_due_date`: `None` when there is no due date, otherwise
the due date plus 1 day (daily), 7 days (weekly) or 30 days (monthly). -/
def Task.get_next_due_date (t : Task) : Option Int :=
  match t.due_date with
  | Option.none => Option.none
  | some d =>
    match t.recurrence_pattern with
    | .daily => some (d + 1)
    | .weekly => some (d + 7)
    | .monthly => some (d + 30)
    | .none => Option.none

/-- `Task._should_create_next_occurrence`: `True` when `times_per_period`
is unset, or when `current_period_count` has reached it. -/
def Task.should_create_next_occurrence (t : Task) : Bool :=
  match t.times_per_period with
  | Option.none => true
  | some n => decide (n ≤ t.current_period_count)

/-- `Task._reset_period_if_needed`: start a fresh period when
`period_start_date` is unset, or when the days elapsed since it reach the
pattern's threshold (daily 1, weekly 7, monthly 30). -/
def Task.reset_period_if_needed (today : Int) (t : Task) : Task :=
  match t.period_start_date with
  | Option.none =>
    { t with period_start_date := some today, current_period_count := 0 }
  | some start =>
    let days_elapsed := today - start
    match t.recurrence_pattern with
    | .daily =>
      if 1 ≤ days_elapsed then
        { t with period_start_date := some today, current_period_count := 0 }
      else t
    | .weekly =>
      if 7 ≤ days_elapsed then
        { t with period_start_date := some today, current_period_count := 0 }
      else t
    | .monthly =>
      if 30 ≤ days_elapsed then
        { t with period_start_date := some today, current_period_count := 0 }
      else t
    | .none => t

/-- Outcome of `Task.complete_recurring_task`: the Python method returns
`None` (`nothing`), a freshly created successor row (`successor`), or
`self` after an in-place reset (`reset`; the reset row itself is the
post-state component of the result pair). -/
inductive CompleteOutcome where
  | nothing
  | successor (t : Task)
  | reset
deriving DecidableEq, Repr

/-- The row built by the `Task.objects.create(...)` call in the
`keep_history` branch of `complete_recurring_task`: the successor task of
`t`, assigned id `freshId`, together with the subsequent
`next_task.tags.set(self.tags.all())` tag copy. -/
def Task.successor_of (today : Int) (freshId : Nat) (t : Task) : Task :=
  { id := freshId
    user := t.user
    title := t.title
    description := t.description
    status := .todo
    priority := t.priority
    tags := t.tags
    due_date := t.get_next_due_date
    is_deleted := false
    deleted_at := Option.none
    recurrence_pattern := t.recurrence_pattern
    times_per_period := t.times_per_period
    current_period_count := 0
    period_start_date := some today
    parent_task := some (t.parent_task.getD t.id)
    keep_history := t.keep_history }

/-- `Task.complete_recurring_task`: pure rendering of the Python method.
The first component of the result is the post-state of `self` (every
mutation the method makes to it), the second the returned value.  `today`
stands for `timezone.now().date()` and `freshId` for the id the store
assigns to a successor created by `Task.objects.create`. -/
def Task.complete_recurring_task (today : Int) (freshId : Nat) (t : Task) :
    Task × CompleteOutcome :=
  if t.is_recurring = false then (t, .nothing)
  else
    let t1 := t.reset_period_if_needed today
    let t2 := { t1 with current_period_count := t1.current_period_count + 1 }
    if t2.should_create_next_occurrence then
      if t2.keep_history then
        (t2, .successor (t2.successor_of today freshId))
      else
        ({ t2 with
            status := .todo
            due_date := t2.get_next_due_date
            period_start_date := some today
            current_period_count := 0 }, .reset)
    else
      (t2, .nothing)

/-- Threshold, in days, after which a pattern's period rolls over
(spec-side constant used to state the rollover claims). -/
def patternThreshold : RecurrencePattern → Int
  | .daily => 1
  | .weekly => 7
  | .monthly => 30
  | .none => 0

/-- Number of days each pattern adds to `due_date` when computing the next
occurrence's due date (spec-side constant). -/
def patternDueOffset : RecurrencePattern → Int
  | .daily => 1
  | .weekly => 7
  | .monthly => 30
  | .none => 0

/-- The intermediate state of `self` inside `complete_recurring_task`
right after the period-rollover check and the
`self.current_period_count += 1` increment, and before the quota check
(spec-side name for the method's transient state). -/
def Task.after_bookkeeping (today : Int) (t : Task) : Task :=
  { t.reset_period_if_needed today with
    current_period_count := (t.reset_period_if_needed today).current_period_count + 1 }

/-- Decision made inside `_reset_period_if_needed`: `true` when the method
starts a fresh period (unset `period_start_date`, or the days elapsed
reach the pattern's threshold). -/
def rollNeeded (today : Int) (t : Task) : Bool :=
  match t.period_start_date with
  | Option.none => true
  | some start =>
    match t.recurrence_pattern with
    | .daily => decide (1 ≤ today - start)
    | .weekly => decide (7 ≤ today - start)
    | .monthly => decide (30 ≤ today - start)
    | .none => false

/-- Concrete weekly task used in scenarios: quota 2 per week, no history,
due on day 0, freshly created (no period bookkeeping yet), just marked
completed by the HTTP layer. -/
def taskA : Task :=
  { id := 1
    user := 7
    title := "A"
    description := some "d"
    status := .completed
    priority := .medium
    tags := [3, 5]
    due_date := some 0
    is_deleted := false
    deleted_at := Option.none
    recurrence_pattern := .weekly
    times_per_period := some 2
    current_period_count := 0
    period_start_date := Option.none
    parent_task := Option.none
    keep_history := true }

/-- Concrete daily task with unlimited quota and history preservation. -/
def taskB : Task :=
  { id := 2
    user := 7
    title := "B"
    description := Option.none
    status := .completed
    priority := .high
    tags := [3]
    due_date := some 10
    is_deleted := false
    deleted_at := Option.none
    recurrence_pattern := .daily
    times_per_period := Option.none
    current_period_count := 0
    period_start_date := Option.none
    parent_task := Option.none
    keep_history := true }

/-- Concrete weekly task with quota 2 and `keep_history = false` (scenario
of the spec's task A). -/
def taskA2 : Task :=
  { taskA with keep_history := false }

/-- Concrete daily history-mode task with quota 1, used to exercise
repeated completions within one period. -/
def taskQuota : Task :=
  { taskA with
    recurrence_pattern := .daily
    times_per_period := some 1
    keep_history := true
    period_start_date := some 0 }

/-- `_reset_period_if_needed` either leaves the task unchanged or starts a
fresh period (period start := today, count := 0). -/
lemma reset_period_spec (t : Task) (today : Int) :
    t.reset_period_if_needed today = t ∨
    t.reset_period_if_needed today =
      { t with period_start_date := some today, current_period_count := 0 } := by
  obtain ⟨i, u, ti, de, st, pr, tg, du, dl, da, pat, tp, c, ps, pa, kh⟩ := t
  cases ps with
  | none => exact Or.inr rfl
  | some p =>
    cases pat with
    | none => exact Or.inl rfl
    | daily =>
      by_cases h : (1 : Int) ≤ today - p
      · exact Or.inr (by simp [Task.reset_period_if_needed, h])
      · exact Or.inl (by simp [Task.reset_period_if_needed, h])
    | weekly =>
      by_cases h : (7 : Int) ≤ today - p
      · exact Or.inr (by simp [Task.reset_period_if_needed, h])
      · exact Or.inl (by simp [Task.reset_period_if_needed, h])
    | monthly =>
      by_cases h : (30 : Int) ≤ today - p
      · exact Or.inr (by simp [Task.reset_period_if_needed, h])
      · exact Or.inl (by simp [Task.reset_period_if_needed, h])

@[simp] lemma reset_period_id (t : Task) (today : Int) :
    (t.reset_period_if_needed today).id = t.id := by
  rcases reset_period_spec t today with h | h <;> rw [h]

@[simp] lemma reset_period_user (t : Task) (today : Int) :
    (t.reset_period_if_needed today).user = t.user := by
  rcases reset_period_spec t today with h | h <;> rw [h]

@[simp] lemma reset_period_title (t : Task) (today : Int) :
    (t.reset_period_if_needed today).title = t.title := by
  rcases reset_period_spec t today with h | h <;> rw [h]

@[simp] lemma reset_period_description (t : Task) (today : Int) :
    (t.reset_period_if_needed today).description = t.description := by
  rcases reset_period_spec t today with h | h <;> rw [h]

@[simp] lemma reset_period_status (t : Task) (today : Int) :
    (t.reset_period_if_needed today).status = t.status := by
  rcases reset_period_spec t today with h | h <;> rw [h]

@[simp] lemma reset_period_priority (t : Task) (today : Int) :
    (t.reset_period_if_needed today).priority = t.priority := by
  rcases reset_period_spec t today with h | h <;> rw [h]

@[simp] lemma reset_period_tags (t : Task) (today : Int) :
    (t.reset_period_if_needed today).tags = t.tags := by
  rcases reset_period_spec t today with h | h <;> rw [h]

@[simp] lemma reset_period_due_date (t : Task) (today : Int) :
    (t.reset_period_if_needed today).due_date = t.due_date := by
  rcases reset_period_spec t today with h | h <;> rw [h]

@[simp] lemma reset_period_is_deleted (t : Task) (today : Int) :
    (t.reset_period_if_needed today).is_deleted = t.is_deleted := by
  rcases reset_period_spec t today with h | h <;> rw [h]

@[simp] lemma reset_period_deleted_at (t : Task) (today : Int) :
    (t.reset_period_if_needed today).deleted_at = t.deleted_at := by
  rcases reset_period_spec t today with h | h <;> rw [h]

@[simp] lemma reset_period_pattern (t : Task) (today : Int) :
    (t.reset_period_if_needed today).recurrence_pattern = t.recurrence_pattern := by
  rcases reset_period_spec t today with h | h <;> rw [h]

@[simp] lemma reset_period_times (t : Task) (today : Int) :
    (t.reset_period_if_needed today).times_per_period = t.times_per_period := by
  rcases reset_period_spec t today with h | h <;> rw [h]

@[simp] lemma reset_period_parent (t : Task) (today : Int) :
    (t.reset_period_if_needed today).parent_task = t.parent_task := by
  rcases reset_period_spec t today with h | h <;> rw [h]

@[simp] lemma reset_period_keep_history (t : Task) (today : Int) :
    (t.reset_period_if_needed today).keep_history = t.keep_history := by
  rcases reset_period_spec t today with h | h <;> rw [h]

/-- Unfolding of `complete_recurring_task` on a recurring task, phrased by
cases on the quota check and the `keep_history` flag. -/
lemma complete_spec (t : Task) (today : Int) (fid : Nat)
    (hrec : t.is_recurring = true) :
    ((t.after_bookkeeping today).should_create_next_occurrence = false →
      t.complete_recurring_task today fid =
        (t.after_bookkeeping today, .nothing)) ∧
    ((t.after_bookkeeping today).should_create_next_occurrence = true →
      t.keep_history = true →
      t.complete_recurring_task today fid =
        (t.after_bookkeeping today,
          .successor ((t.after_bookkeeping today).successor_of today fid))) ∧
    ((t.after_bookkeeping today).should_create_next_occurrence = true →
      t.keep_history = false →
      t.complete_recurring_task today fid =
        ({ t.after_bookkeeping today with
            status := .todo
            due_date := (t.after_bookkeeping today).get_next_due_date
            period_start_date := some today
            current_period_count := 0 }, .reset)) := by
  refine ⟨?_, ?_, ?_⟩ <;>
    · intros
      simp_all [Task.complete_recurring_task, Task.after_bookkeeping, hrec]

/-- `_reset_period_if_needed`, characterised through the `rollNeeded`
decision. -/
lemma reset_period_eq (t : Task) (today : Int) :
    t.reset_period_if_needed today =
      if rollNeeded today t then
        { t with period_start_date := some today, current_period_count := 0 }
      else t := by
  obtain ⟨i, u, ti, de, st, pr, tg, du, dl, da, pat, tp, c, ps, pa, kh⟩ := t
  cases ps with
  | none => rfl
  | some p =>
    cases pat <;>
      simp only [Task.reset_period_if_needed, rollNeeded] <;>
      [skip;
       by_cases h : (1 : Int) ≤ today - p <;> simp [h];
       by_cases h : (7 : Int) ≤ today - p <;> simp [h];
       by_cases h : (30 : Int) ≤ today - p <;> simp [h]]
    rfl

lemma rollNeeded_status (t : Task) (s : Status) (today : Int) :
    rollNeeded today { t with status := s } = rollNeeded today t := rfl

lemma is_recurring_status (t : Task) (s : Status) :
    ({ t with status := s } : Task).is_recurring = t.is_recurring := rfl

lemma should_create_status (t : Task) (s : Status) :
    ({ t with status := s } : Task).should_create_next_occurrence =
      t.should_create_next_occurrence := rfl

lemma get_next_due_status (t : Task) (s : Status) :
    ({ t with status := s } : Task).get_next_due_date = t.get_next_due_date := rfl

lemma successor_of_status (t : Task) (s : Status) (today : Int) (fid : Nat) :
    ({ t with status := s } : Task).successor_of today fid =
      t.successor_of today fid := rfl

/-- Period rollover ignores the task's status. -/
lemma reset_period_status_comm (t : Task) (s : Status) (today : Int) :
    ({ t with status := s } : Task).reset_period_if_needed today =
      { t.reset_period_if_needed today with status := s } := by
  rw [reset_period_eq, reset_period_eq, rollNeeded_status]
  cases hr : rollNeeded today t <;> simp

/-- The bookkeeping phase (rollover plus increment) ignores the task's
status. -/
lemma after_bookkeeping_status (t : Task) (s : Status) (today : Int) :
    ({ t with status := s } : Task).after_bookkeeping today =
      { t.after_bookkeeping today with status := s } := by
  simp [Task.after_bookkeeping, reset_period_status_comm]

/-- The bookkeeping phase does not change the inputs of the next-due-date
computation. -/
lemma after_bookkeeping_next_due (t : Task) (today : Int) :
    (t.after_bookkeeping today).get_next_due_date = t.get_next_due_date := by
  rcases reset_period_spec t today with h | h <;>
    simp [Task.after_bookkeeping, Task.get_next_due_date, h]

@[simp] lemma after_bookkeeping_id (t : Task) (today : Int) :
    (t.after_bookkeeping today).id = t.id := by
  simp [Task.after_bookkeeping]

@[simp] lemma after_bookkeeping_user (t : Task) (today : Int) :
    (t.after_bookkeeping today).user = t.user := by
  simp [Task.after_bookkeeping]

@[simp] lemma after_bookkeeping_title (t : Task) (today : Int) :
    (t.after_bookkeeping today).title = t.title := by
  simp [Task.after_bookkeeping]

@[simp] lemma after_bookkeeping_description (t : Task) (today : Int) :
    (t.after_bookkeeping today).description = t.description := by
  simp [Task.after_bookkeeping]

@[simp] lemma after_bookkeeping_status_field (t : Task) (today : Int) :
    (t.after_bookkeeping today).status = t.status := by
  simp [Task.after_bookkeeping]

@[simp] lemma after_bookkeeping_priority (t : Task) (today : Int) :
    (t.after_bookkeeping today).priority = t.priority := by
  simp [Task.after_bookkeeping]

@[simp] lemma after_bookkeeping_tags (t : Task) (today : Int) :
    (t.after_bookkeeping today).tags = t.tags := by
  simp [Task.after_bookkeeping]

@[simp] lemma after_bookkeeping_due_date (t : Task) (today : Int) :
    (t.after_bookkeeping today).due_date = t.due_date := by
  simp [Task.after_bookkeeping]

@[simp] lemma after_bookkeeping_is_deleted (t : Task) (today : Int) :
    (t.after_bookkeeping today).is_deleted = t.is_deleted := by
  simp [Task.after_bookkeeping]

@[simp] lemma after_bookkeeping_deleted_at (t : Task) (today : Int) :
    (t.after_bookkeeping today).deleted_at = t.deleted_at := by
  simp [Task.after_bookkeeping]

@[simp] lemma after_bookkeeping_pattern (t : Task) (today : Int) :
    (t.after_bookkeeping today).recurrence_pattern = t.recurrence_pattern := by
  simp [Task.after_bookkeeping]

@[simp] lemma after_bookkeeping_times (t : Task) (today : Int) :
    (t.after_bookkeeping today).times_per_period = t.times_per_period := by
  simp [Task.after_bookkeeping]

@[simp] lemma after_bookkeeping_parent (t : Task) (today : Int) :
    (t.after_bookkeeping today).parent_task = t.parent_task := by
  simp [Task.after_bookkeeping]

@[simp] lemma after_bookkeeping_keep_history (t : Task) (today : Int) :
    (t.after_bookkeeping today).keep_history = t.keep_history := by
  simp [Task.after_bookkeeping]

/-- C8: calling `complete_recurring_task` on a task whose
`recurrence_pattern` is `none` returns nothing and mutates no field of the
task (defensive no-op). -/
theorem c8_nonrecurring_noop (t : Task) (today : Int) (fid : Nat)
    (h : t.recurrence_pattern = RecurrencePattern.none) :
    t.complete_recurring_task today fid = (t, CompleteOutcome.nothing) := by
  simp [Task.complete_recurring_task, Task.is_recurring, h]

/-- Witness for C8 on a concrete non-recurring task. -/
theorem c8_nonrecurring_noop_witness :
    ({ taskA with recurrence_pattern := RecurrencePattern.none } : Task).complete_recurring_task 5 9 =
      ({ taskA with recurrence_pattern := RecurrencePattern.none }, CompleteOutcome.nothing) :=
  c8_nonrecurring_noop { taskA with recurrence_pattern := RecurrencePattern.none } 5 9 rfl

/-- C5: for a recurring task, the next due date adds exactly 1 day
(daily), 7 days (weekly) or 30 days (monthly) to `due_date`, and an absent
`due_date` yields an absent next due date. -/
theorem c5_next_due_date (t : Task) (h : t.is_recurring = true) :
    (t.due_date = Option.none → t.get_next_due_date = Option.none) ∧
    (∀ d : Int, t.due_date = some d →
      t.get_next_due_date = some (d + patternDueOffset t.recurrence_pattern)) := by
  constructor
  · intro hd
    simp [Task.get_next_due_date, hd]
  · intro d hd
    cases hp : t.recurrence_pattern <;>
      simp_all [Task.get_next_due_date, Task.is_recurring, patternDueOffset]

/-- Witness for C5: the weekly task due on day 0 gets next due date
0 + 7. -/
theorem c5_next_due_date_witness :
    taskA.get_next_due_date = some (0 + patternDueOffset taskA.recurrence_pattern) :=
  (c5_next_due_date taskA rfl).2 0 rfl

/-- C3: a recurring task with `times_per_period` unset always produces a
result — a newly created successor when `keep_history` is true, the same
task reset to `todo` when it is false — and never returns nothing. -/
theorem c3_unlimited_always_produces (t : Task) (today : Int) (fid : Nat)
    (hrec : t.is_recurring = true) (hN : t.times_per_period = Option.none) :
    (t.complete_recurring_task today fid).2 ≠ CompleteOutcome.nothing ∧
    (t.keep_history = true →
      (t.complete_recurring_task today fid).2 =
        CompleteOutcome.successor ((t.after_bookkeeping today).successor_of today fid)) ∧
    (t.keep_history = false →
      (t.complete_recurring_task today fid).2 = CompleteOutcome.reset ∧
      (t.complete_recurring_task today fid).1.status = Status.todo) := by
  have hsc : (t.after_bookkeeping today).should_create_next_occurrence = true := by
    simp [Task.should_create_next_occurrence, Task.after_bookkeeping, hN]
  obtain ⟨h1, h2, h3⟩ := complete_spec t today fid hrec
  cases hkh : t.keep_history with
  | false =>
    rw [h3 hsc hkh]
    simp [hkh]
  | true =>
    rw [h2 hsc hkh]
    simp [hkh]

/-- Witness for C3 on the concrete unlimited daily task. -/
theorem c3_unlimited_always_produces_witness :
    (taskB.complete_recurring_task 0 42).2 ≠ CompleteOutcome.nothing :=
  (c3_unlimited_always_produces taskB 0 42 rfl rfl).1

/-- C4: at the start of `complete_recurring_task` for a recurring task, an
unset `period_start_date` is initialised to today with count 0 and no
rollover comparison happens; otherwise the period rolls over (count := 0,
period start := today) exactly when the days elapsed reach the pattern's
threshold (daily 1, weekly 7, monthly 30); and the rollover is applied
before the increment, so a rolled-over completion that keeps the task's
row (history mode) persists count 1. -/
theorem c4_period_rollover (t : Task) (today : Int) (fid : Nat)
    (hrec : t.is_recurring = true) :
    (t.period_start_date = Option.none →
      t.reset_period_if_needed today =
        { t with period_start_date := some today, current_period_count := 0 }) ∧
    (∀ p : Int, t.period_start_date = some p →
      (patternThreshold t.recurrence_pattern ≤ today - p →
        t.reset_period_if_needed today =
          { t with period_start_date := some today, current_period_count := 0 }) ∧
      (today - p < patternThreshold t.recurrence_pattern →
        t.reset_period_if_needed today = t)) ∧
    (∀ p : Int, t.period_start_date = some p →
      patternThreshold t.recurrence_pattern ≤ today - p →
      t.keep_history = true →
      (t.complete_recurring_task today fid).1.current_period_count = 1) := by
  have hroll : ∀ p : Int, t.period_start_date = some p →
      patternThreshold t.recurrence_pattern ≤ today - p →
      t.reset_period_if_needed today =
        { t with period_start_date := some today, current_period_count := 0 } := by
    intro p hp hth
    cases hpat : t.recurrence_pattern
    case none => simp [Task.is_recurring, hpat] at hrec
    all_goals
      rw [hpat] at hth
      simp [patternThreshold] at hth
      simp [Task.reset_period_if_needed, hp, hpat, hth]
  refine ⟨?_, ?_, ?_⟩
  · intro h
    simp [Task.reset_period_if_needed, h]
  · intro p hp
    refine ⟨hroll p hp, ?_⟩
    intro hth
    cases hpat : t.recurrence_pattern
    case none => simp [Task.is_recurring, hpat] at hrec
    all_goals
      rw [hpat] at hth
      simp [patternThreshold] at hth
      simp [Task.reset_period_if_needed, hp, hpat, not_le.mpr hth]
  · intro p hp hth hkh
    have hcount : (t.after_bookkeeping today).current_period_count = 1 := by
      simp [Task.after_bookkeeping, hroll p hp hth]
    obtain ⟨h1, h2, h3⟩ := complete_spec t today fid hrec
    cases hsc : (t.after_bookkeeping today).should_create_next_occurrence with
    | false =>
      rw [h1 hsc]
      exact hcount
    | true =>
      rw [h2 hsc hkh]
      exact hcount

/-- Witness for C4: the weekly task whose period started on day 0,
observed on day 7, rolled over and persists count 1. -/
theorem c4_period_rollover_witness :
    (({ taskA with period_start_date := some 0 } : Task).complete_recurring_task 7 9).1.current_period_count = 1 :=
  (c4_period_rollover { taskA with period_start_date := some 0 } 7 9 rfl).2.2 0 rfl
    (by decide) rfl

/-- C1: on a recurring task with quota `N > 0` whose period does not roll
over, a completion that brings the count to less than `N` only increments
`current_period_count` and returns nothing, while the completion that
brings the count to exactly `N` produces a successor (history mode) or a
reset (no-history mode). -/
theorem c1_quota_boundary (t : Task) (today : Int) (fid N : Nat)
    (hrec : t.is_recurring = true)
    (hN : t.times_per_period = some N) (hpos : 0 < N)
    (hnoroll : t.reset_period_if_needed today = t) :
    (t.current_period_count + 1 < N →
      t.complete_recurring_task today fid =
        ({ t with current_period_count := t.current_period_count + 1 },
          CompleteOutcome.nothing)) ∧
    (t.current_period_count + 1 = N →
      (t.keep_history = true →
        (t.complete_recurring_task today fid).2 =
          CompleteOutcome.successor ((t.after_bookkeeping today).successor_of today fid)) ∧
      (t.keep_history = false →
        (t.complete_recurring_task today fid).2 = CompleteOutcome.reset)) := by
  have hab : t.after_bookkeeping today =
      { t with current_period_count := t.current_period_count + 1 } := by
    simp [Task.after_bookkeeping, hnoroll]
  obtain ⟨h1, h2, h3⟩ := complete_spec t today fid hrec
  constructor
  · intro hlt
    have hsc : (t.after_bookkeeping today).should_create_next_occurrence = false := by
      simp only [Task.should_create_next_occurrence, hab, hN]
      simp only [decide_eq_false_iff_not]
      omega
    rw [h1 hsc, hab]
  · intro heq
    have hsc : (t.after_bookkeeping today).should_create_next_occurrence = true := by
      simp only [Task.should_create_next_occurrence, hab, hN]
      simp only [decide_eq_true_eq]
      omega
    exact ⟨fun hk => by rw [h2 hsc hk], fun hk => by rw [h3 hsc hk]⟩

/-- Witness for C1: first completion of the weekly quota-2 task (period
started today) only increments the counter. -/
theorem c1_quota_boundary_witness :
    ({ taskA with period_start_date := some 0 } : Task).complete_recurring_task 0 9 =
      ({ taskA with period_start_date := some 0, current_period_count := 1 },
        CompleteOutcome.nothing) :=
  (c1_quota_boundary { taskA with period_start_date := some 0 } 0 9 2 rfl rfl
    (by decide) (by decide)).1 (by decide)

/-- C2: for the scenario's task A (weekly, quota 2, no history, due day 0,
marked completed), the code does NOT behave as the scenario — and the
repository's own test `test_times_per_period_limit` — demand: the first
completion does not set status to `todo` nor move the due date to day 7,
and the second completion does not leave the task completed with count 2
returning nothing.  The code does the opposite of the test's assertions on
this input. -/
theorem c2_scenario_fails_on_code :
    ¬ (((taskA2.complete_recurring_task 0 99).1.status = Status.todo ∧
        (taskA2.complete_recurring_task 0 99).1.current_period_count = 1 ∧
        (taskA2.complete_recurring_task 0 99).1.due_date = some 7) ∧
       (((taskA2.complete_recurring_task 0 99).1.complete_recurring_task 0 100).1.status =
          Status.completed ∧
        ((taskA2.complete_recurring_task 0 99).1.complete_recurring_task 0 100).1.current_period_count = 2 ∧
        ((taskA2.complete_recurring_task 0 99).1.complete_recurring_task 0 100).2 =
          CompleteOutcome.nothing)) := by
  decide

/-- C2, actual code behaviour on the scenario's input family: for a task
with pattern weekly, quota 2, no history and due date `D`, the first
completion returns nothing, leaves status and due date untouched, sets
count to 1 and the period start to today; the second completion on the
same day returns the same task reset: status `todo`, count 0, due date
`D + 7`, period start today. -/
theorem c2_scenario_actual_behaviour (D today : Int) (s : Status) (fid fid2 : Nat) :
    ({ taskA2 with due_date := some D, status := s } : Task).complete_recurring_task today fid =
      ({ taskA2 with
          due_date := some D
          status := s
          current_period_count := 1
          period_start_date := some today }, CompleteOutcome.nothing) ∧
    ({ taskA2 with
        due_date := some D
        status := s
        current_period_count := 1
        period_start_date := some today } : Task).complete_recurring_task today fid2 =
      ({ taskA2 with
          due_date := some (D + 7)
          status := Status.todo
          current_period_count := 0
          period_start_date := some today },
        CompleteOutcome.reset) := by
  constructor
  · rfl
  · have hno : ¬ (7 : Int) ≤ today - today := by simp
    simp [Task.complete_recurring_task, Task.reset_period_if_needed, Task.is_recurring,
      Task.should_create_next_occurrence, Task.get_next_due_date, taskA2, taskA, hno]

/-- C6: a completion that produces a successor yields a new row with the
same owner, copied title, description, priority, pattern, quota and
history flag; status `todo`, the computed next due date, parent pointing
at the original's parent if set and at the original otherwise, period
start today, count 0, and the source's tag set; the original row keeps its
status. -/
theorem c6_successor_fields (t : Task) (today : Int) (fid : Nat) (s : Task)
    (h : (t.complete_recurring_task today fid).2 = CompleteOutcome.successor s) :
    s.id = fid ∧ s.user = t.user ∧ s.title = t.title ∧
    s.description = t.description ∧ s.priority = t.priority ∧
    s.recurrence_pattern = t.recurrence_pattern ∧
    s.times_per_period = t.times_per_period ∧ s.keep_history = t.keep_history ∧
    s.status = Status.todo ∧ s.due_date = t.get_next_due_date ∧
    s.parent_task = some (t.parent_task.getD t.id) ∧
    s.period_start_date = some today ∧ s.current_period_count = 0 ∧
    s.tags = t.tags ∧
    (t.complete_recurring_task today fid).1.status = t.status := by
  have hrec : t.is_recurring = true := by
    cases hb : t.is_recurring with
    | true => rfl
    | false => simp [Task.complete_recurring_task, hb] at h
  obtain ⟨h1, h2, h3⟩ := complete_spec t today fid hrec
  cases hsc : (t.after_bookkeeping today).should_create_next_occurrence with
  | false => rw [h1 hsc] at h; simp at h
  | true =>
    cases hkh : t.keep_history with
    | false => rw [h3 hsc hkh] at h; simp at h
    | true =>
      rw [h2 hsc hkh] at h
      simp only [CompleteOutcome.successor.injEq] at h
      subst h
      rw [h2 hsc hkh]
      simp [Task.successor_of, after_bookkeeping_next_due, hkh]

/-- Witness for C6 on the concrete unlimited daily history task. -/
theorem c6_successor_fields_witness :
    ((taskB.after_bookkeeping 0).successor_of 0 42).status = Status.todo ∧
    ((taskB.after_bookkeeping 0).successor_of 0 42).parent_task = some taskB.id := by
  have H := c6_successor_fields taskB 0 42 ((taskB.after_bookkeeping 0).successor_of 0 42) rfl
  exact ⟨H.2.2.2.2.2.2.2.2.1, H.2.2.2.2.2.2.2.2.2.2.1⟩

/-- C7: a completion that resets the task in place returns the same row
(id unchanged) with status `todo`, the computed next due date, period
start today and count 0, while every other field — soft-delete fields,
owner, title, description, priority, tags, pattern, quota, parent and
history flag — is unchanged. -/
theorem c7_reset_frame (t : Task) (today : Int) (fid : Nat)
    (h : (t.complete_recurring_task today fid).2 = CompleteOutcome.reset) :
    (t.complete_recurring_task today fid).1.id = t.id ∧
    (t.complete_recurring_task today fid).1.status = Status.todo ∧
    (t.complete_recurring_task today fid).1.due_date = t.get_next_due_date ∧
    (t.complete_recurring_task today fid).1.period_start_date = some today ∧
    (t.complete_recurring_task today fid).1.current_period_count = 0 ∧
    (t.complete_recurring_task today fid).1.is_deleted = t.is_deleted ∧
    (t.complete_recurring_task today fid).1.deleted_at = t.deleted_at ∧
    (t.complete_recurring_task today fid).1.user = t.user ∧
    (t.complete_recurring_task today fid).1.title = t.title ∧
    (t.complete_recurring_task today fid).1.description = t.description ∧
    (t.complete_recurring_task today fid).1.priority = t.priority ∧
    (t.complete_recurring_task today fid).1.tags = t.tags ∧
    (t.complete_recurring_task today fid).1.recurrence_pattern = t.recurrence_pattern ∧
    (t.complete_recurring_task today fid).1.times_per_period = t.times_per_period ∧
    (t.complete_recurring_task today fid).1.parent_task = t.parent_task ∧
    (t.complete_recurring_task today fid).1.keep_history = t.keep_history := by
  have hrec : t.is_recurring = true := by
    cases hb : t.is_recurring with
    | true => rfl
    | false => simp [Task.complete_recurring_task, hb] at h
  obtain ⟨h1, h2, h3⟩ := complete_spec t today fid hrec
  cases hsc : (t.after_bookkeeping today).should_create_next_occurrence with
  | false => rw [h1 hsc] at h; simp at h
  | true =>
    cases hkh : t.keep_history with
    | true => rw [h2 hsc hkh] at h; simp at h
    | false =>
      rw [h3 hsc hkh]
      simp [after_bookkeeping_next_due, hkh]

/-- Witness for C7: the no-history weekly task, second completion of the
day, is reset in place with its id and soft-delete fields untouched. -/
theorem c7_reset_frame_witness :
    (({ taskA2 with period_start_date := some 0, current_period_count := 1 } : Task).complete_recurring_task 0 5).1.id =
      ({ taskA2 with period_start_date := some 0, current_period_count := 1 } : Task).id :=
  (c7_reset_frame { taskA2 with period_start_date := some 0, current_period_count := 1 } 0 5
    (by decide)).1

/-- C9 counterexample: in history mode the engine saves the incremented
counter, so repeated same-day completions of the daily quota-1 task push
`current_period_count` to 3, which exceeds `times_per_period + 1 = 2` —
already as the persisted value of the third call, hence a fortiori
transiently. -/
theorem c9_count_bound_counterexample :
    taskQuota.times_per_period = some 1 ∧
    ¬ ((((taskQuota.complete_recurring_task 0 10).1.complete_recurring_task 0 11).1.complete_recurring_task 0 12).1.current_period_count ≤ 1 + 1) := by
  decide

/-- C9 amended: `current_period_count` is never negative (it is a natural
number, mirroring the `PositiveIntegerField`); in any call entered with
`current_period_count ≤ times_per_period`, the count never exceeds
`times_per_period + 1`, even transiently at the increment-then-check point;
and a non-recurring task never has its period fields advanced by the
engine. -/
theorem c9_count_bound_amended (t : Task) (today : Int) (fid : Nat) :
    0 ≤ (t.complete_recurring_task today fid).1.current_period_count ∧
    (∀ N : Nat, t.times_per_period = some N → t.current_period_count ≤ N →
      (t.after_bookkeeping today).current_period_count ≤ N + 1 ∧
      (t.complete_recurring_task today fid).1.current_period_count ≤ N + 1) ∧
    (t.recurrence_pattern = RecurrencePattern.none →
      t.complete_recurring_task today fid = (t, CompleteOutcome.nothing)) := by
  refine ⟨Nat.zero_le _, ?_, ?_⟩
  · intro N hN hinv
    have htrans : (t.after_bookkeeping today).current_period_count ≤ N + 1 := by
      rcases reset_period_spec t today with h | h <;>
        simp [Task.after_bookkeeping, h] <;> omega
    refine ⟨htrans, ?_⟩
    cases hb : t.is_recurring with
    | false =>
      have hc : t.complete_recurring_task today fid = (t, CompleteOutcome.nothing) := by
        simp [Task.complete_recurring_task, hb]
      rw [hc]
      simpa using Nat.le_succ_of_le hinv
    | true =>
      obtain ⟨h1, h2, h3⟩ := complete_spec t today fid hb
      cases hsc : (t.after_bookkeeping today).should_create_next_occurrence with
      | false =>
        rw [h1 hsc]
        exact htrans
      | true =>
        cases hkh : t.keep_history with
        | true =>
          rw [h2 hsc hkh]
          exact htrans
        | false =>
          rw [h3 hsc hkh]
          simp
  · intro hpat
    simp [Task.complete_recurring_task, Task.is_recurring, hpat]

/-- Witness for C9 (amended): the weekly quota-2 task entered with count 0
stays within the bound. -/
theorem c9_count_bound_amended_witness :
    (taskA.complete_recurring_task 0 5).1.current_period_count ≤ 2 + 1 :=
  ((c9_count_bound_amended taskA 0 5).2.1 2 rfl (by decide)).2

/-- C10: `complete_recurring_task` never reads the task's status — for two
input tasks identical except for status, the decision and returned value
coincide, and the post-states agree on every field the operation writes:
they differ at most in `status`, and only when the operation did not write
it (non-producing call or history mode), in which case each keeps its own
input status. -/
theorem c10_status_oblivious (t : Task) (s : Status) (today : Int) (fid : Nat) :
    (({ t with status := s } : Task).complete_recurring_task today fid).2 =
      (t.complete_recurring_task today fid).2 ∧
    (({ t with status := s } : Task).complete_recurring_task today fid).1 =
      { (t.complete_recurring_task today fid).1 with
        status :=
          if (t.complete_recurring_task today fid).2 = CompleteOutcome.reset then
            (t.complete_recurring_task today fid).1.status
          else s } := by
  cases hb : t.is_recurring with
  | false =>
    have hb' : ({ t with status := s } : Task).is_recurring = false := hb
    have hc : t.complete_recurring_task today fid = (t, CompleteOutcome.nothing) := by
      simp [Task.complete_recurring_task, hb]
    have hc' : ({ t with status := s } : Task).complete_recurring_task today fid =
        ({ t with status := s }, CompleteOutcome.nothing) := by
      simp [Task.complete_recurring_task, hb']
    rw [hc, hc']
    simp
  | true =>
    have hb' : ({ t with status := s } : Task).is_recurring = true := hb
    obtain ⟨h1, h2, h3⟩ := complete_spec t today fid hb
    obtain ⟨g1, g2, g3⟩ := complete_spec { t with status := s } today fid hb'
    have hsc' : (({ t with status := s } : Task).after_bookkeeping today).should_create_next_occurrence =
        (t.after_bookkeeping today).should_create_next_occurrence := by
      rw [after_bookkeeping_status]
      exact should_create_status (t.after_bookkeeping today) s
    have hkh' : ({ t with status := s } : Task).keep_history = t.keep_history := rfl
    by_cases hsc : (t.after_bookkeeping today).should_create_next_occurrence = true
    · by_cases hkh : t.keep_history = true
      · simp only [h2 hsc hkh, g2 (hsc'.trans hsc) (hkh'.trans hkh)]
        simp [after_bookkeeping_status, successor_of_status, Task.successor_of,
          after_bookkeeping_next_due, Task.get_next_due_date]
      · have hkhf : t.keep_history = false := by simpa using hkh
        simp only [h3 hsc hkhf, g3 (hsc'.trans hsc) (hkh'.trans hkhf)]
        simp [after_bookkeeping_status, get_next_due_status,
          after_bookkeeping_next_due, Task.get_next_due_date]
    · have hscf : (t.after_bookkeeping today).should_create_next_occurrence = false := by
        simpa using hsc
      simp only [h1 hscf, g1 (hsc'.trans hscf)]
      simp [after_bookkeeping_status]

end PersonallyMe
